import Mathlib

/-!
Verification development for the harbor invoice-ingestion script
(`harbor.py`).

The script is shallowly embedded: dynamic JSON-like Python values become the
inductive type `Json`, Python dictionary/list operations become fallible
functions into `Except String`, the sqlite database becomes the record `DB`
of three row lists, and the commit/rollback behaviour of the sqlite
connection is made explicit in the `Outcome` type returned by
`save_invoice` (an uncaught exception propagates to `main`, whose `finally`
closes the connection, rolling back everything not yet committed; hence the
database observable after a raised exception is the last committed state).

Modelling conventions:
  - Python `int` and `float` are embedded as `Json.int : Int` and
    `Json.float : Rat`; both compare equal across the two constructors in
    `pyEq`, as in Python.  String-by-integer multiplication is modelled for
    integer factors only.
  - `json.dumps` of a payload is kept as the payload value itself (the
    serialized text blob is opaque to every claim and the serialization of
    a `Json` value never fails).
  - sqlite type affinity is not modelled: the values the script binds are
    stored as bound.  Binding a list or dict raises `InterfaceError`, which
    is modelled by the `bindable` checks at each INSERT/DELETE.
  - `float()` accepts plain decimal strings (optional sign, digits, one
    optional decimal point); exponents, inf/nan and surrounding whitespace
    are not modelled, and no concrete input below uses them.
-/

namespace Harbor

/-- Embedded Python/JSON dynamic value. -/
inductive Json where
  | null
  | bool (b : Bool)
  | int (n : Int)
  | float (q : Rat)
  | str (s : String)
  | arr (xs : List Json)
  | obj (fields : List (String × Json))

/-- Numeric view: Python treats bool as int, and int and float compare and
multiply together.  Returns `none` for non-numeric values. -/
def toRatVal? : Json → Option Rat
  | .int n => some (n : Rat)
  | .float q => some q
  | .bool b => some (if b then 1 else 0)
  | _ => none

/-- Integer view (Python `int` and `bool` only). -/
def intVal? : Json → Option Int
  | .int n => some n
  | .bool b => some (if b then 1 else 0)
  | _ => none

/-- Python `==` on the values the script compares (dict keys and the values
bound into sqlite; lists and dicts are unhashable and are rejected before
any comparison, so they are never compared here). -/
def pyEq (a b : Json) : Bool :=
  match toRatVal? a, toRatVal? b with
  | some x, some y => decide (x = y)
  | _, _ =>
    match a, b with
    | .null, .null => true
    | .str s, .str t => decide (s = t)
    | _, _ => false

/-- sqlite `=` used by the DELETE statements: NULL compares equal to
nothing, numerics compare by value, text by content. -/
def sqlEq (a b : Json) : Bool :=
  match a, b with
  | .null, _ => false
  | _, .null => false
  | _, _ => pyEq a b

/-- Python truthiness (`if x:`). -/
def pyTruthy : Json → Bool
  | .null => false
  | .bool b => b
  | .int n => decide (n ≠ 0)
  | .float q => decide (q ≠ 0)
  | .str s => !s.isEmpty
  | .arr xs => !xs.isEmpty
  | .obj fields => !fields.isEmpty

/-- Hashable Python values (usable as dict keys). -/
def hashable : Json → Bool
  | .arr _ => false
  | .obj _ => false
  | _ => true

/-- Values the sqlite3 driver can bind as a statement parameter. -/
def bindable : Json → Bool
  | .arr _ => false
  | .obj _ => false
  | _ => true

/-- Lookup of a string key in an embedded dict (payload dicts come from
`response.json()`, whose keys are unique). -/
def objLookup (fields : List (String × Json)) (k : String) : Option Json :=
  (fields.find? (fun p => p.1 == k)).map (fun p => p.2)

def keyErrorMsg (k : String) : String := "KeyError: " ++ k

def interfaceErrorMsg : String := "InterfaceError: unsupported parameter type"

/-- Python `d.get(k, dflt)`: only dicts have `.get`. -/
def objGetD (j : Json) (k : String) (dflt : Json) : Except String Json :=
  match j with
  | .obj fields => .ok ((objLookup fields k).getD dflt)
  | _ => .error "AttributeError: object has no attribute get"

/-- Python `d.get(k)` (missing key yields `None`). -/
def objGet? (j : Json) (k : String) : Except String Json :=
  objGetD j k .null

/-- Python `x[k]` with a string key `k`. -/
def pyIndex (j : Json) (k : String) : Except String Json :=
  match j with
  | .obj fields =>
    match objLookup fields k with
    | some v => .ok v
    | none => .error (keyErrorMsg k)
  | .str _ => .error "TypeError: string indices must be integers"
  | .arr _ => .error "TypeError: list indices must be integers"
  | _ => .error "TypeError: object is not subscriptable"

/-- Python `x[0]`. -/
def pyIndex0 (j : Json) : Except String Json :=
  match j with
  | .arr [] => .error "IndexError: list index out of range"
  | .arr (x :: _) => .ok x
  | .str s =>
    match s.data with
    | [] => .error "IndexError: string index out of range"
    | c :: _ => .ok (.str (String.singleton c))
  | .obj _ => .error "KeyError: 0"
  | _ => .error "TypeError: object is not subscriptable"

/-- Python `d.items()`. -/
def pyItems (j : Json) : Except String (List (String × Json)) :=
  match j with
  | .obj fields => .ok fields
  | _ => .error "AttributeError: object has no attribute items"

/-- Python `in`-style membership of a string key in a dict (the script only
tests membership on dicts). -/
def hasKey (j : Json) (k : String) : Bool :=
  match j with
  | .obj fields => (objLookup fields k).isSome
  | _ => false

/-- Python iteration `for x in v`. -/
def pyIter (j : Json) : Except String (List Json) :=
  match j with
  | .arr xs => .ok xs
  | .str s => .ok (s.data.map (fun c => .str (String.singleton c)))
  | .obj fields => .ok (fields.map (fun p => .str p.1))
  | _ => .error "TypeError: object is not iterable"

def strRepeat (s : String) (n : Int) : String :=
  String.join (List.replicate n.toNat s)

def listRepeat (xs : List Json) (n : Int) : List Json :=
  (List.replicate n.toNat xs).flatten

/-- Python `a * b` for the value shapes that can reach the line-total
computation. -/
def pyMul (a b : Json) : Except String Json :=
  match intVal? a, intVal? b, toRatVal? a, toRatVal? b with
  | some m, some n, _, _ => .ok (.int (m * n))
  | _, _, some x, some y => .ok (.float (x * y))
  | some m, _, _, _ =>
    (match b with
     | .str s => .ok (.str (strRepeat s m))
     | .arr xs => .ok (.arr (listRepeat xs m))
     | _ => .error "TypeError: unsupported operand types for mul")
  | _, some n, _, _ =>
    (match a with
     | .str s => .ok (.str (strRepeat s n))
     | .arr xs => .ok (.arr (listRepeat xs n))
     | _ => .error "TypeError: unsupported operand types for mul")
  | _, _, _, _ => .error "TypeError: unsupported operand types for mul"

def digitsVal? (cs : List Char) : Option Nat :=
  cs.foldl (fun acc c =>
    acc.bind (fun a => if c.isDigit then some (a * 10 + (c.toNat - 48)) else none))
    (some 0)

/-- Decimal-string parsing of Python `float(...)` (sign, digits, at most one
decimal point; at least one digit). -/
def parseFloat? (s : String) : Option Rat :=
  let cs := s.data
  let signAndRest : Int × List Char :=
    match cs with
    | '-' :: rest => (-1, rest)
    | '+' :: rest => (1, rest)
    | _ => (1, cs)
  let sign := signAndRest.1
  let body := signAndRest.2
  let ip := body.takeWhile (fun c => c ≠ '.')
  let rest := body.drop ip.length
  match rest with
  | [] =>
    if ip.isEmpty then none
    else (digitsVal? ip).map (fun n => (sign : Rat) * (n : Rat))
  | _ :: fp =>
    if fp.contains '.' then none
    else if ip.isEmpty && fp.isEmpty then none
    else do
      let i ← digitsVal? ip
      let f ← digitsVal? fp
      some ((sign : Rat) * ((i : Rat) + (f : Rat) / ((10 : Rat) ^ fp.length)))

/-- Python `float(x)`. -/
def floatCoerce (j : Json) : Except String Rat :=
  match j with
  | .int n => .ok (n : Rat)
  | .float q => .ok q
  | .bool b => .ok (if b then 1 else 0)
  | .str s =>
    (match parseFloat? s with
     | some q => .ok q
     | none => .error ("ValueError: could not convert string to float: " ++ s))
  | _ => .error "TypeError: float() argument must be a string or a real number"

/-- Structural `mapM` over `Except String`, stopping at the first error (the
order in which the script executes its per-row work). -/
def exMapM (f : α → Except String β) : List α → Except String (List β)
  | [] => .ok []
  | x :: xs => do
    let y ← f x
    let ys ← exMapM f xs
    .ok (y :: ys)

/-- Value of a succeeded `Except`, with a fallback for the error case. -/
def exOk (e : Except String α) (dflt : α) : α :=
  match e with
  | .ok a => a
  | .error _ => dflt

/-! ## The three tables (`setup_database`) -/

/-- Row of `harbor_categories`. -/
structure CatRow where
  invoice_id : Json
  category_name : Json
  category_id : Json
  item_count : Json
  total_cost : Json

/-- Row of `harbor_invoice_items`. -/
structure ItemRow where
  invoice_id : Json
  item_id : Json
  item_description : Json
  brand_name : Json
  category_id : Json
  unit_price : Json
  net_price : Json
  quantity : Json
  uom : Json
  retail_upc : Json
  vendor_id : Json
  srp : Json
  margin_pct : Json
  package_description : Json
  line_total : Json

/-- Row of `harbor_invoices` (the 29 columns the INSERT binds; `created_at`
is a sqlite default and carries no claim content). -/
structure DocRow where
  document_id : Json
  document_type : Json
  bill_to_id : Json
  bill_to_name : Json
  bill_to_address : Json
  bill_to_city : Json
  bill_to_state : Json
  bill_to_zip : Json
  order_id : Json
  posted_date : Json
  order_date : Json
  due_date : Json
  ship_to_name : Json
  ship_to_address : Json
  ship_to_city : Json
  ship_to_state : Json
  ship_to_zip : Json
  payment_terms : Json
  payment_method : Json
  transaction_type : Json
  allowances : Json
  charges : Json
  discounts : Json
  sales_tax : Json
  subtotal : Json
  invoice_total : Json
  categories : Json
  items : Json
  raw_data : Json

/-- Contents of the sqlite database `clover.db`. -/
structure DB where
  docs : List DocRow
  cats : List CatRow
  items : List ItemRow

/-- INSERT OR REPLACE into `harbor_invoices`, whose primary key is
`document_id` (sqlite replaces every conflicting row; NULL keys never
conflict). -/
def upsertDoc (db : DB) (row : DocRow) : DB :=
  ⟨db.docs.filter (fun r => !sqlEq r.document_id row.document_id) ++ [row],
   db.cats, db.items⟩

/-! ## `save_categories` -/

def catRowBind (r : CatRow) : Bool :=
  bindable r.invoice_id && bindable r.category_name && bindable r.category_id
    && bindable r.item_count && bindable r.total_cost

/-- Parameter binding of one category INSERT. -/
def catInsert (r : CatRow) : Except String CatRow :=
  if catRowBind r then .ok r else .error interfaceErrorMsg

/-- The category rows `save_categories` inserts: iterate
`categories_data.items()`; per entry take `CategoryID` (no default),
`Count` (default `0`) and `Cost` (default `0.0`). -/
def catRows (document_id : Json) (categories_data : Json) : Except String (List CatRow) := do
  let entries ← pyItems categories_data
  exMapM (fun p => do
    let cid ← objGet? p.2 "CategoryID"
    let cnt ← objGetD p.2 "Count" (.int 0)
    let cost ← objGetD p.2 "Cost" (.float 0)
    catInsert ⟨document_id, .str p.1, cid, cnt, cost⟩) entries

/-- `save_categories(conn, document_id, categories_data)`: DELETE the
invoice's category rows, then insert the mapped rows.  The function's final
`conn.commit()` is accounted for by the caller (`save_invoice`); on an
error everything here is still uncommitted and is rolled back when the
connection closes, so the error case carries no state. -/
def save_categories (db : DB) (document_id : Json) (categories_data : Json) :
    Except String DB :=
  if bindable document_id then do
    let rows ← catRows document_id categories_data
    .ok ⟨db.docs,
         db.cats.filter (fun r => !sqlEq r.invoice_id document_id) ++ rows,
         db.items⟩
  else .error interfaceErrorMsg

/-! ## `save_line_items` -/

/-- The lookup dict `{item[\x27ItemId\x27]: item for item in items_data.get(\x27Value\x27, [])}`.
Every item is subscripted with `ItemId` while the dict is built, and every
key must be hashable. -/
def buildDetails (items_data : Json) : Except String (List (Json × Json)) := do
  let v ← objGetD items_data "Value" (.arr [])
  let xs ← pyIter v
  exMapM (fun item => do
    let k ← pyIndex item "ItemId"
    if hashable k then .ok (k, item) else .error "TypeError: unhashable type") xs

/-- Python dict lookup on the built association list: later duplicates
shadow earlier ones, hence the reversed search. -/
def detailsFind (details : List (Json × Json)) (key : Json) : Option Json :=
  (details.reverse.find? (fun p => pyEq p.1 key)).map (fun p => p.2)

/-- `item_details.get(item_id, {})` (raises on an unhashable key). -/
def detailsGet (details : List (Json × Json)) (key : Json) : Except String Json :=
  if hashable key then .ok ((detailsFind details key).getD (.obj []))
  else .error "TypeError: unhashable type"

/-- `line_item.get(\x27Item\x27, {}).get(\x27ItemId\x27)`. -/
def resolvedItemId (line_item : Json) : Except String Json := do
  let itemRef ← objGetD line_item "Item" (.obj [])
  objGet? itemRef "ItemId"

/-- The first unit-of-measure entry:
`item_detail.get(\x27UOMs\x27, [\x7b\x7d])[0] if item_detail else \x7b\x7d`. -/
def uomOf (item_detail : Json) : Except String Json :=
  if pyTruthy item_detail then do
    let u ← objGetD item_detail "UOMs" (.arr [.obj []])
    pyIndex0 u
  else .ok (.obj [])

def itemRowBind (r : ItemRow) : Bool :=
  bindable r.invoice_id && bindable r.item_id && bindable r.item_description
    && bindable r.brand_name && bindable r.category_id && bindable r.unit_price
    && bindable r.net_price && bindable r.quantity && bindable r.uom
    && bindable r.retail_upc && bindable r.vendor_id && bindable r.srp
    && bindable r.margin_pct && bindable r.package_description
    && bindable r.line_total

/-- Parameter binding of one line-item INSERT. -/
def itemInsert (r : ItemRow) : Except String ItemRow :=
  if itemRowBind r then .ok r else .error interfaceErrorMsg

/-- One iteration of the `save_line_items` loop, in source order: resolve
the item id, look up the detail record, take the first UOM entry
(`item_detail.get(\x27UOMs\x27, [\x7b\x7d])[0]` when the detail is truthy, else `\x7b\x7d`),
default the quantity and the unit price to `0` for the line total, then
bind the 15 columns. -/
def lineItemRow (document_id : Json) (details : List (Json × Json)) (line_item : Json) :
    Except String ItemRow := do
  let item_id ← resolvedItemId line_item
  let item_detail ← detailsGet details item_id
  let uomv ← uomOf item_detail
  let quantity ← objGetD line_item "Quantity" (.int 0)
  let unit_price ← objGetD line_item "UnitPrice" (.int 0)
  let line_total ← pyMul quantity unit_price
  let descr ← objGet? item_detail "ItemDescription"
  let brand ← objGet? item_detail "BrandName"
  let cat_id ← objGet? item_detail "CategoryID"
  let up ← objGet? line_item "UnitPrice"
  let net ← objGet? line_item "NetPrice"
  let uomCode ← objGet? line_item "UnitOfMeasure"
  let upc ← objGet? item_detail "RetailUPC"
  let vend ← objGet? item_detail "VendorID"
  let srpv ← objGet? uomv "SRP"
  let marg ← objGet? uomv "MarginPct"
  let pkg ← objGet? uomv "PackageDescription"
  itemInsert ⟨document_id, item_id, descr, brand, cat_id, up, net,
    quantity, uomCode, upc, vend, srpv, marg, pkg, line_total⟩

/-- The line-item rows `save_line_items` inserts. -/
def itemRows (document_id : Json) (line_items_data items_data : Json) :
    Except String (List ItemRow) := do
  let details ← buildDetails items_data
  let v ← objGetD line_items_data "Value" (.arr [])
  let xs ← pyIter v
  exMapM (lineItemRow document_id details) xs

/-- `save_line_items(conn, document_id, line_items_data, items_data)`:
DELETE the invoice's line-item rows, then insert the mapped rows; its final
`conn.commit()` is accounted for by the caller, and the error case is fully
rolled back at connection close. -/
def save_line_items (db : DB) (document_id line_items_data items_data : Json) :
    Except String DB :=
  if bindable document_id then do
    let rows ← itemRows document_id line_items_data items_data
    .ok ⟨db.docs, db.cats,
         db.items.filter (fun r => !sqlEq r.invoice_id document_id) ++ rows⟩
  else .error interfaceErrorMsg

/-! ## `save_invoice` -/

/-- The required header fields in the order the INSERT parameter tuple
evaluates them; `true` marks the six monetary fields that are wrapped in
`float(...)`. -/
def headerFieldSpecs : List (String × Bool) :=
  [("DocumentId", false), ("DocumentType", false), ("BillToId", false),
   ("BillToName", false), ("BillToAddress", false), ("BillToCity", false),
   ("BillToState", false), ("BillToZip", false), ("OrderId", false),
   ("PostedDate", false), ("OrderDate", false), ("DueDate", false),
   ("ShipToName", false), ("ShipToAddress", false), ("ShipToCity", false),
   ("ShipToState", false), ("ShipToZip", false), ("PaymentTerms", false),
   ("PaymentMethod", false), ("TransactionType", false),
   ("Allowances", true), ("Charges", true), ("Discounts", true),
   ("SalesTax", true), ("SubTotal", true), ("InvoiceTotal", true)]

/-- Evaluate one required header field: `header[name]`, wrapped in
`float(...)` for the monetary fields. -/
def headerField (header : Json) (spec : String × Bool) : Except String Json := do
  let v ← pyIndex header spec.1
  if spec.2 then do
    let q ← floatCoerce v
    .ok (.float q)
  else .ok v

/-- Evaluate the 26 required header fields in parameter order, stopping at
the first KeyError or coercion error. -/
def extractFields (header : Json) : Except String (List Json) :=
  exMapM (headerField header) headerFieldSpecs

/-- Assemble the `harbor_invoices` row from the 26 extracted values and the
three serialized payload blobs. -/
def docRowOf (vals : List Json) (catsBlob itemsBlob rawBlob : Json) : DocRow :=
  ⟨vals.getD 0 .null, vals.getD 1 .null, vals.getD 2 .null, vals.getD 3 .null,
   vals.getD 4 .null, vals.getD 5 .null, vals.getD 6 .null, vals.getD 7 .null,
   vals.getD 8 .null, vals.getD 9 .null, vals.getD 10 .null, vals.getD 11 .null,
   vals.getD 12 .null, vals.getD 13 .null, vals.getD 14 .null, vals.getD 15 .null,
   vals.getD 16 .null, vals.getD 17 .null, vals.getD 18 .null, vals.getD 19 .null,
   vals.getD 20 .null, vals.getD 21 .null, vals.getD 22 .null, vals.getD 23 .null,
   vals.getD 24 .null, vals.getD 25 .null, catsBlob, itemsBlob, rawBlob⟩

/-- Bindability of the 26 directly bound doc columns (the three blob
columns are bound as `json.dumps` text and always bind). -/
def docRowBind (r : DocRow) : Bool :=
  bindable r.document_id && bindable r.document_type && bindable r.bill_to_id
    && bindable r.bill_to_name && bindable r.bill_to_address
    && bindable r.bill_to_city && bindable r.bill_to_state
    && bindable r.bill_to_zip && bindable r.order_id && bindable r.posted_date
    && bindable r.order_date && bindable r.due_date && bindable r.ship_to_name
    && bindable r.ship_to_address && bindable r.ship_to_city
    && bindable r.ship_to_state && bindable r.ship_to_zip
    && bindable r.payment_terms && bindable r.payment_method
    && bindable r.transaction_type && bindable r.allowances
    && bindable r.charges && bindable r.discounts && bindable r.sales_tax
    && bindable r.subtotal && bindable r.invoice_total

/-- Parameter binding of the doc INSERT OR REPLACE, carrying along the two
payload references `save_invoice` reuses afterwards. -/
def docInsert (raw header : Json) (row : DocRow) : Except String (Json × Json × DocRow) :=
  if docRowBind row then .ok (raw, header, row) else .error interfaceErrorMsg

/-- Everything `save_invoice` does before its INSERT OR REPLACE row exists:
`invoice_data[raw_data][header]`, the 26 required fields (with float
coercion), the three `.get` blobs, and parameter binding.  Any error here
leaves the database untouched. -/
def headerStep (invoice_data : Json) : Except String (Json × Json × DocRow) := do
  let raw ← pyIndex invoice_data "raw_data"
  let header ← pyIndex raw "header"
  let vals ← extractFields header
  let catsBlob ← objGetD invoice_data "categories" (.obj [])
  let itemsBlob ← objGetD invoice_data "items" (.arr [])
  let rawBlob ← objGetD invoice_data "raw_data" (.obj [])
  docInsert raw header (docRowOf vals catsBlob itemsBlob rawBlob)

/-- Observable result of a `save_invoice` call: either the run committed
(`ok`), or an exception was re-raised and the connection was later closed,
rolling back whatever was not yet committed (`raised` carries the last
committed database). -/
inductive Outcome where
  | ok (db : DB)
  | raised (msg : String) (db : DB)

def outcomeDB : Outcome → DB
  | .ok db => db
  | .raised _ db => db

def outcomeRaised : Outcome → Bool
  | .ok _ => false
  | .raised _ _ => true

def outcomeMsg : Outcome → String
  | .ok _ => ""
  | .raised e _ => e

/-- The tail of `save_invoice` after the category step: the
`line_items`-guarded call of `save_line_items` followed by the final
`conn.commit()`.  `current` is the connection's pending state, `committed`
the state already committed (by `save_categories`, when it ran). -/
def lineItemsPhase (invoice_data raw header : Json) (current committed : DB) : Outcome :=
  if hasKey invoice_data "raw_data" && hasKey raw "line_items" then
    match pyIndex header "DocumentId" with
    | .error e => .raised e committed
    | .ok did =>
      match pyIndex invoice_data "raw_data" with
      | .error e => .raised e committed
      | .ok raw2 =>
        match pyIndex raw2 "line_items" with
        | .error e => .raised e committed
        | .ok lis =>
          match pyIndex invoice_data "items" with
          | .error e => .raised e committed
          | .ok its =>
            match save_line_items current did lis its with
            | .error e => .raised e committed
            | .ok db3 => .ok db3
  else .ok current

/-- `save_invoice(conn, invoice_data)`.  The doc INSERT is pending until a
`conn.commit()` runs; `save_categories` commits at its end (committing the
doc row with it), `save_line_items` commits at its end, and the final
`conn.commit()` commits whatever remains.  An exception is printed and
re-raised, and the caller's `finally: conn.close()` rolls back the
uncommitted remainder. -/
def save_invoice (db : DB) (invoice_data : Json) : Outcome :=
  match headerStep invoice_data with
  | .error e => .raised e db
  | .ok (raw, header, row) =>
    if hasKey invoice_data "categories" then
      match pyIndex header "DocumentId" with
      | .error e => .raised e db
      | .ok did =>
        match pyIndex invoice_data "categories" with
        | .error e => .raised e db
        | .ok cats =>
          match save_categories (upsertDoc db row) did cats with
          | .error e => .raised e db
          | .ok db2 => lineItemsPhase invoice_data raw header db2 db2
    else lineItemsPhase invoice_data raw header (upsertDoc db row) db

/-- The `raw_data` sub-object `main` assembles. -/
def bundleRaw (header categories items line_items : Json) : Json :=
  .obj [("header", header), ("categories", categories), ("items", items),
        ("line_items", line_items)]

/-- The `invoice_data` bundle `main` assembles from the four API payloads. -/
def invoiceBundle (document_id : String) (header categories items line_items : Json) : Json :=
  .obj [("document_id", .str document_id), ("categories", categories),
        ("items", items),
        ("raw_data", bundleRaw header categories items line_items)]

/-! ## `HarborAPI.get_items` -/

/-- Rough Python `str(x)` for filter interpolation (the script only ever
interpolates item-id strings). -/
def pyStr : Json → String
  | .null => "None"
  | .bool b => if b then "True" else "False"
  | .int n => toString n
  | .float q => toString q
  | .str s => s
  | .arr _ => "[...]"
  | .obj _ => "\x7b...\x7d"

/-- The disjunctive OData filter `(ItemID eq \x27id1\x27 or ItemID eq \x27id2\x27 ...)`. -/
def filterExpr (item_ids : List Json) : String :=
  "(" ++ String.intercalate " or "
    (item_ids.map (fun id => "ItemID eq \x27" ++ pyStr id ++ "\x27")) ++ ")"

/-- What a `get_items` call does: either return a local result with no
network traffic, or issue the POST request with the given body. -/
inductive ItemsFetch where
  | localResult (result : Json)
  | networkPost (filter : String) (top : Nat) (orderBy : String)

/-- `HarborAPI.get_items(item_ids)`: with no ids, short-circuit to
`{Value: []}`; otherwise POST the filter with `Top` 100 ordered by
`ItemDescription asc`. -/
def get_items (item_ids : List Json) : ItemsFetch :=
  if item_ids.isEmpty then .localResult (.obj [("Value", .arr [])])
  else .networkPost (filterExpr item_ids) 100 "ItemDescription asc"

/-! ## `check_database` -/

def sqliteRank : Json → Nat
  | .null => 0
  | .bool _ => 1
  | .int _ => 1
  | .float _ => 1
  | .str _ => 2
  | _ => 3

/-- sqlite ORDER BY comparison: NULL before numerics before text. -/
def sqliteLe (a b : Json) : Bool :=
  if sqliteRank a ≠ sqliteRank b then decide (sqliteRank a < sqliteRank b)
  else
    match toRatVal? a, toRatVal? b with
    | some x, some y => decide (x ≤ y)
    | _, _ =>
      match a, b with
      | .str s, .str t => !decide (t < s)
      | _, _ => true

def insertLe (le : α → α → Bool) (x : α) : List α → List α
  | [] => [x]
  | y :: ys => if le x y then x :: y :: ys else y :: insertLe le x ys

def sortLe (le : α → α → Bool) : List α → List α
  | [] => []
  | x :: xs => insertLe le x (sortLe le xs)

/-- Projection of the invoices SELECT. -/
structure InvReportRow where
  document_id : Json
  document_type : Json
  bill_to_name : Json
  invoice_total : Json

/-- Projection of the categories SELECT (ordered by total_cost DESC). -/
structure CatReportRow where
  invoice_id : Json
  category_name : Json
  item_count : Json
  total_cost : Json

/-- Projection of the line-items SELECT (ordered by line_total DESC). -/
structure LineReportRow where
  invoice_id : Json
  item_id : Json
  item_description : Json
  unit_price : Json
  srp : Json
  quantity : Json
  line_total : Json

structure Report where
  invoiceRows : List InvReportRow
  categoryRows : List CatReportRow
  lineItemRows : List LineReportRow

/-- The SELECT over `harbor_invoices`: a pure read, returning the state it
was given. -/
def selectInvoiceRows (db : DB) : List InvReportRow × DB :=
  (db.docs.map (fun d => ⟨d.document_id, d.document_type, d.bill_to_name, d.invoice_total⟩), db)

/-- The SELECT over `harbor_categories` with `ORDER BY total_cost DESC`. -/
def selectCategoryRows (db : DB) : List CatReportRow × DB :=
  (sortLe (fun a b => sqliteLe b.total_cost a.total_cost)
     (db.cats.map (fun c => ⟨c.invoice_id, c.category_name, c.item_count, c.total_cost⟩)), db)

/-- The SELECT over `harbor_invoice_items` with `ORDER BY line_total DESC`. -/
def selectLineItemRows (db : DB) : List LineReportRow × DB :=
  (sortLe (fun a b => sqliteLe b.line_total a.line_total)
     (db.items.map (fun i =>
        ⟨i.invoice_id, i.item_id, i.item_description, i.unit_price, i.srp,
         i.quantity, i.line_total⟩)), db)

/-- A `:.2f` format application: succeeds on numbers, raises on anything
else (those exceptions are not `sqlite3.Error` and propagate out of
`check_database`). -/
def fmt2f (v : Json) : Except String Unit :=
  match v with
  | .int _ => .ok ()
  | .float _ => .ok ()
  | .bool _ => .ok ()
  | .str _ => .error "ValueError: unknown format code f for object of type str"
  | _ => .error "TypeError: unsupported format string passed to NoneType format"

/-- `check_database()`: the three SELECTs and the formatting of their rows.
Its result is the rendered report (or the first formatting failure)
together with the database state after the call. -/
def check_database (db : DB) : Except String Report × DB :=
  let invsel := selectInvoiceRows db
  match exMapM (fun r => fmt2f r.invoice_total) invsel.1 with
  | .error e => (.error e, invsel.2)
  | .ok _ =>
    let catsel := selectCategoryRows invsel.2
    match exMapM (fun r => fmt2f r.total_cost) catsel.1 with
    | .error e => (.error e, catsel.2)
    | .ok _ =>
      let itsel := selectLineItemRows catsel.2
      match exMapM (fun r => do
          let _ ← fmt2f r.unit_price
          let _ ← fmt2f r.srp
          fmt2f r.line_total) itsel.1 with
      | .error e => (.error e, itsel.2)
      | .ok _ => (.ok ⟨invsel.1, catsel.1, itsel.1⟩, itsel.2)

/-! ## Concrete inputs used by counterexamples and witnesses -/

def emptyDB : DB := ⟨[], [], []⟩

/-- A header payload carrying all 26 required fields. -/
def goodHeader : Json :=
  .obj [("DocumentId", .str "2349466"), ("DocumentType", .str "Invoice"),
        ("BillToId", .str "700030"), ("BillToName", .str "Acme"),
        ("BillToAddress", .str "1 Main"), ("BillToCity", .str "Salem"),
        ("BillToState", .str "OR"), ("BillToZip", .str "97301"),
        ("OrderId", .str "O1"), ("PostedDate", .str "2024-01-01"),
        ("OrderDate", .str "2024-01-01"), ("DueDate", .str "2024-01-15"),
        ("ShipToName", .str "Acme"), ("ShipToAddress", .str "1 Main"),
        ("ShipToCity", .str "Salem"), ("ShipToState", .str "OR"),
        ("ShipToZip", .str "97301"), ("PaymentTerms", .str "Net30"),
        ("PaymentMethod", .str "ACH"), ("TransactionType", .str "Sale"),
        ("Allowances", .int 0), ("Charges", .int 0), ("Discounts", .int 0),
        ("SalesTax", .int 0), ("SubTotal", .float 42), ("InvoiceTotal", .float 42)]

def catsGrocery : Json :=
  .obj [("Grocery", .obj [("CategoryID", .str "G1"), ("Count", .int 2),
                          ("Cost", .float 10)])]

def lineItemsX1 : Json :=
  .obj [("Value", .arr [.obj [("Item", .obj [("ItemId", .str "X1")]),
                              ("Quantity", .int 2), ("UnitPrice", .int 5)]])]

/-- An items payload whose matched detail record carries a present but
empty UOM list. -/
def itemsEmptyUoms : Json :=
  .obj [("Value", .arr [.obj [("ItemId", .str "X1"), ("UOMs", .arr [])]])]

def bundleEmptyUoms : Json :=
  invoiceBundle "2349466" goodHeader catsGrocery itemsEmptyUoms lineItemsX1

/-- A line item with `Quantity` 3 and no `UnitPrice` field, and the row it
yields: quantity 3, null unit_price, line_total 0. -/
def liNoUnitPrice : Json :=
  .obj [("Item", .obj [("ItemId", .str "X")]), ("Quantity", .int 3)]

def rowNoUnitPrice : ItemRow :=
  ⟨.str "D1", .str "X", .null, .null, .null, .null, .null, .int 3,
   .null, .null, .null, .null, .null, .null, .int 0⟩

/-- The row produced from an empty line-item object: null item_id and null
unit_price among the "core" fields. -/
def rowEmptyLine : ItemRow :=
  ⟨.str "D1", .null, .null, .null, .null, .null, .null, .int 0,
   .null, .null, .null, .null, .null, .null, .int 0⟩

/-- An items payload whose matched detail record has no UOMs key at all. -/
def itemsNoUoms : Json :=
  .obj [("Value", .arr [.obj [("ItemId", .str "X1")]])]
/-- A header with `Allowances` present but non-numeric and `InvoiceTotal`
absent. -/
def headerC5fields : List (String × Json) :=
  [("DocumentId", .str "2349466"), ("DocumentType", .str "Invoice"),
   ("BillToId", .str "700030"), ("BillToName", .str "Acme"),
   ("BillToAddress", .str "1 Main"), ("BillToCity", .str "Salem"),
   ("BillToState", .str "OR"), ("BillToZip", .str "97301"),
   ("OrderId", .str "O1"), ("PostedDate", .str "2024-01-01"),
   ("OrderDate", .str "2024-01-01"), ("DueDate", .str "2024-01-15"),
   ("ShipToName", .str "Acme"), ("ShipToAddress", .str "1 Main"),
   ("ShipToCity", .str "Salem"), ("ShipToState", .str "OR"),
   ("ShipToZip", .str "97301"), ("PaymentTerms", .str "Net30"),
   ("PaymentMethod", .str "ACH"), ("TransactionType", .str "Sale"),
   ("Allowances", .str "x"), ("Charges", .int 0), ("Discounts", .int 0),
   ("SalesTax", .int 0), ("SubTotal", .float 42)]

def headerC5 : Json := .obj headerC5fields

def bundleC5 : Json :=
  invoiceBundle "2349466" headerC5 catsGrocery itemsEmptyUoms lineItemsX1

/-! ## Helper lemmas -/

theorem exBind_ok {α β : Type} {x : Except String α} {f : α → Except String β} {b : β} :
    (x >>= f) = .ok b ↔ ∃ a, x = .ok a ∧ f a = .ok b := by
  cases x <;> simp [Bind.bind, Except.bind]

theorem exBind_error {α β : Type} {x : Except String α} {f : α → Except String β}
    {e : String} :
    (x >>= f) = .error e ↔ x = .error e ∨ ∃ a, x = .ok a ∧ f a = .error e := by
  cases x <;> simp [Bind.bind, Except.bind]

theorem itemInsert_ok {x y : ItemRow} (h : itemInsert x = .ok y) : y = x := by
  unfold itemInsert at h
  split at h
  · injection h with h
    exact h.symm
  · cases h

theorem catInsert_ok {x y : CatRow} (h : catInsert x = .ok y) : y = x := by
  unfold catInsert at h
  split at h
  · injection h with h
    exact h.symm
  · cases h

theorem docInsert_ok {raw header : Json} {row : DocRow} {t : Json × Json × DocRow}
    (h : docInsert raw header row = .ok t) : t = (raw, header, row) := by
  unfold docInsert at h
  split at h
  · injection h with h
    exact h.symm
  · cases h

theorem objGetD_ok_shape {j : Json} {k : String} {d v : Json}
    (h : objGetD j k d = .ok v) :
    ∃ fs, j = .obj fs ∧ v = (objLookup fs k).getD d := by
  cases j <;> simp [objGetD] at h
  exact ⟨_, rfl, h.symm⟩

theorem hasKey_false_lookup {fs : List (String × Json)} {k : String}
    (h : hasKey (.obj fs) k = false) : objLookup fs k = none := by
  cases h' : objLookup fs k with
  | none => rfl
  | some v => simp [hasKey, h'] at h

theorem pyMul_ok_left_ne_null {a b c : Json} (h : pyMul a b = .ok c) : a ≠ .null := by
  rintro rfl
  cases b <;> simp [pyMul, intVal?, toRatVal?] at h

theorem pyMul_ok_right_ne_null {a b c : Json} (h : pyMul a b = .ok c) : b ≠ .null := by
  rintro rfl
  cases a <;> simp [pyMul, intVal?, toRatVal?] at h

theorem pyMul_ok_ne_null {a b c : Json} (h : pyMul a b = .ok c) : c ≠ .null := by
  unfold pyMul at h
  split at h <;>
    first
      | (injection h with h; subst h; intro hc; cases hc)
      | (split at h <;>
          first
            | (injection h with h; subst h; intro hc; cases hc)
            | (cases h))
      | (cases h)

/-- Inversion of a successful `lineItemRow` call: the source line item is a
dict, and every stored column is determined by the source lookups. -/
theorem lineItemRow_ok_inv {did : Json} {ds : List (Json × Json)} {li : Json}
    {r : ItemRow} (h : lineItemRow did ds li = .ok r) :
    ∃ fs iid detail uomv,
      li = .obj fs ∧
      resolvedItemId li = .ok iid ∧
      detailsGet ds iid = .ok detail ∧
      uomOf detail = .ok uomv ∧
      (pyTruthy detail = false → uomv = .obj []) ∧
      r.invoice_id = did ∧
      r.item_id = iid ∧
      objGet? detail "ItemDescription" = .ok r.item_description ∧
      objGet? detail "BrandName" = .ok r.brand_name ∧
      objGet? uomv "SRP" = .ok r.srp ∧
      objGet? uomv "MarginPct" = .ok r.margin_pct ∧
      objGet? uomv "PackageDescription" = .ok r.package_description ∧
      r.quantity = (objLookup fs "Quantity").getD (.int 0) ∧
      r.unit_price = (objLookup fs "UnitPrice").getD .null ∧
      pyMul r.quantity ((objLookup fs "UnitPrice").getD (.int 0)) = .ok r.line_total := by
  unfold lineItemRow at h
  obtain ⟨iid, h1, h⟩ := exBind_ok.mp h
  obtain ⟨detail, h2, h⟩ := exBind_ok.mp h
  obtain ⟨uomv, h3, h⟩ := exBind_ok.mp h
  obtain ⟨q, h4, h⟩ := exBind_ok.mp h
  obtain ⟨up0, h5, h⟩ := exBind_ok.mp h
  obtain ⟨lt, h6, h⟩ := exBind_ok.mp h
  obtain ⟨descr, h7, h⟩ := exBind_ok.mp h
  obtain ⟨brand, h8, h⟩ := exBind_ok.mp h
  obtain ⟨cid, h9, h⟩ := exBind_ok.mp h
  obtain ⟨up, h10, h⟩ := exBind_ok.mp h
  obtain ⟨net, h11, h⟩ := exBind_ok.mp h
  obtain ⟨uc, h12, h⟩ := exBind_ok.mp h
  obtain ⟨upc, h13, h⟩ := exBind_ok.mp h
  obtain ⟨vend, h14, h⟩ := exBind_ok.mp h
  obtain ⟨sv, h15, h⟩ := exBind_ok.mp h
  obtain ⟨mg, h16, h⟩ := exBind_ok.mp h
  obtain ⟨pk, h17, h⟩ := exBind_ok.mp h
  have hr := itemInsert_ok h
  subst hr
  obtain ⟨fs, hfs, hq⟩ := objGetD_ok_shape h4
  obtain ⟨fs', hfs', hup0⟩ := objGetD_ok_shape h5
  rw [hfs] at hfs'
  injection hfs' with hfs'
  subst hfs'
  subst hfs
  obtain ⟨gs, hgs, hupv⟩ := objGetD_ok_shape h10
  injection hgs with hgs
  subst hgs
  refine ⟨fs, iid, detail, uomv, rfl, h1, h2, h3, ?_, rfl, rfl, h7, h8, h15, h16, h17, ?_, ?_, ?_⟩
  · intro htr
    unfold uomOf at h3
    rw [htr] at h3
    simp at h3
    exact h3.symm
  · exact hq
  · exact hupv
  · rw [hup0] at h6
    exact h6

theorem exMapM_ok_forall₂ {α β : Type} {f : α → Except String β} {xs : List α}
    {ys : List β} (h : exMapM f xs = .ok ys) :
    List.Forall₂ (fun x y => f x = .ok y) xs ys := by
  induction xs generalizing ys with
  | nil =>
    unfold exMapM at h
    injection h with h
    subst h
    exact List.Forall₂.nil
  | cons x xs ih =>
    unfold exMapM at h
    obtain ⟨y, h1, h⟩ := exBind_ok.mp h
    obtain ⟨ys', h2, h⟩ := exBind_ok.mp h
    injection h with h
    subst h
    exact List.Forall₂.cons h1 (ih h2)

theorem forall₂_mem_right {α β : Type} {R : α → β → Prop} {l₁ : List α}
    {l₂ : List β} (h : List.Forall₂ R l₁ l₂) {b : β} (hb : b ∈ l₂) :
    ∃ a, a ∈ l₁ ∧ R a b := by
  induction h with
  | nil => cases hb
  | cons hr ht ih =>
    rcases List.mem_cons.mp hb with hb | hb
    · exact ⟨_, List.mem_cons_self _ _, by rw [hb]; exact hr⟩
    · obtain ⟨a, ha, hR⟩ := ih hb
      exact ⟨a, List.mem_cons_of_mem _ ha, hR⟩

theorem filter_not_filter {α : Type} (p : α → Bool) (xs : List α) :
    (xs.filter (fun x => !p x)).filter p = [] := by
  induction xs with
  | nil => rfl
  | cons x xs ih =>
    by_cases h : p x
    · simp [List.filter_cons, h, ih]
    · simp [List.filter_cons, h, ih]

theorem sqlEq_str_refl (s : String) : sqlEq (.str s) (.str s) = true := by
  simp [sqlEq, pyEq, toRatVal?]

/-- The four payload positions of the in-memory bundle, read back the way
`save_invoice` reads them. -/
theorem bundle_rawdata (s : String) (h c i l : Json) :
    pyIndex (invoiceBundle s h c i l) "raw_data" = .ok (bundleRaw h c i l) := rfl

theorem bundleRaw_header (h c i l : Json) :
    pyIndex (bundleRaw h c i l) "header" = .ok h := rfl

theorem bundle_categories (s : String) (h c i l : Json) :
    pyIndex (invoiceBundle s h c i l) "categories" = .ok c := rfl

theorem bundle_items (s : String) (h c i l : Json) :
    pyIndex (invoiceBundle s h c i l) "items" = .ok i := rfl

theorem bundleRaw_lineitems (h c i l : Json) :
    pyIndex (bundleRaw h c i l) "line_items" = .ok l := rfl

theorem bundle_blob_categories (s : String) (h c i l d : Json) :
    objGetD (invoiceBundle s h c i l) "categories" d = .ok c := rfl

theorem bundle_blob_items (s : String) (h c i l d : Json) :
    objGetD (invoiceBundle s h c i l) "items" d = .ok i := rfl

theorem bundle_blob_rawdata (s : String) (h c i l d : Json) :
    objGetD (invoiceBundle s h c i l) "raw_data" d = .ok (bundleRaw h c i l) := rfl

/-- Inversion of a successful `headerStep` on a `main`-shaped bundle. -/
theorem headerStep_bundle_ok {s : String} {h c i l : Json}
    {t : Json × Json × DocRow}
    (hh : headerStep (invoiceBundle s h c i l) = .ok t) :
    ∃ vals, extractFields h = .ok vals ∧
      t = (bundleRaw h c i l, h,
           docRowOf vals c i (bundleRaw h c i l)) := by
  unfold headerStep at hh
  obtain ⟨raw, hr, hh⟩ := exBind_ok.mp hh
  rw [bundle_rawdata] at hr
  injection hr with hr
  subst hr
  obtain ⟨hdr, hr2, hh⟩ := exBind_ok.mp hh
  rw [bundleRaw_header] at hr2
  injection hr2 with hr2
  subst hr2
  obtain ⟨vals, hv, hh⟩ := exBind_ok.mp hh
  obtain ⟨cb, hcb, hh⟩ := exBind_ok.mp hh
  rw [bundle_blob_categories] at hcb
  injection hcb with hcb
  subst hcb
  obtain ⟨ib, hib, hh⟩ := exBind_ok.mp hh
  rw [bundle_blob_items] at hib
  injection hib with hib
  subst hib
  obtain ⟨rb, hrb, hh⟩ := exBind_ok.mp hh
  rw [bundle_blob_rawdata] at hrb
  injection hrb with hrb
  subst hrb
  exact ⟨vals, hv, docInsert_ok hh⟩

/-- A successful field extraction starts with the `DocumentId` lookup. -/
theorem extractFields_ok_head {header : Json} {vals : List Json}
    (h : extractFields header = .ok vals) :
    pyIndex header "DocumentId" = .ok (vals.getD 0 .null) := by
  unfold extractFields headerFieldSpecs at h
  unfold exMapM at h
  obtain ⟨v, h1, h⟩ := exBind_ok.mp h
  obtain ⟨ys, h2, h⟩ := exBind_ok.mp h
  injection h with h
  subst h
  unfold headerField at h1
  obtain ⟨w, hw, h1⟩ := exBind_ok.mp h1
  simp at h1
  rw [h1] at hw
  exact hw

theorem save_categories_ok {d0 : DB} {did cd : Json} {d1 : DB}
    (h : save_categories d0 did cd = .ok d1) :
    ∃ rows, catRows did cd = .ok rows ∧
      d1 = ⟨d0.docs,
            d0.cats.filter (fun r => !sqlEq r.invoice_id did) ++ rows,
            d0.items⟩ := by
  unfold save_categories at h
  split at h
  · obtain ⟨rows, hr, h⟩ := exBind_ok.mp h
    injection h with h
    exact ⟨rows, hr, h.symm⟩
  · cases h

theorem save_line_items_ok {d0 : DB} {did lis its : Json} {d1 : DB}
    (h : save_line_items d0 did lis its = .ok d1) :
    ∃ rows, itemRows did lis its = .ok rows ∧
      d1 = ⟨d0.docs, d0.cats,
            d0.items.filter (fun r => !sqlEq r.invoice_id did) ++ rows⟩ := by
  unfold save_line_items at h
  split at h
  · obtain ⟨rows, hr, h⟩ := exBind_ok.mp h
    injection h with h
    exact ⟨rows, hr, h.symm⟩
  · cases h

/-- Every `raised` exit of the line-item phase carries the committed
database (everything after the last commit is rolled back at close). -/
theorem lineItemsPhase_raised {inv raw header : Json} {cur com d : DB}
    {e : String} (h : lineItemsPhase inv raw header cur com = .raised e d) :
    d = com := by
  unfold lineItemsPhase at h
  split at h
  · split at h
    next => injection h with h1 h2; exact h2.symm
    next =>
      split at h
      next => injection h with h1 h2; exact h2.symm
      next =>
        split at h
        next => injection h with h1 h2; exact h2.symm
        next =>
          split at h
          next => injection h with h1 h2; exact h2.symm
          next =>
            split at h
            next => injection h with h1 h2; exact h2.symm
            next => cases h
  · cases h

/-- When some required field is absent from the header dict, the field
extraction fails, and the error is either the KeyError of an absent
required field or the float-coercion failure of a present monetary field
evaluated before it. -/
theorem extractFields_absent_error {hf : List (String × Json)}
    (specs : List (String × Bool))
    (habs : ∃ p, p ∈ specs ∧ objLookup hf p.1 = none) :
    ∃ e, exMapM (headerField (.obj hf)) specs = .error e ∧
      ((∃ g b, (g, b) ∈ specs ∧ objLookup hf g = none ∧ e = keyErrorMsg g) ∨
       (∃ g v, (g, true) ∈ specs ∧ objLookup hf g = some v ∧
          floatCoerce v = .error e)) := by
  induction specs with
  | nil =>
    obtain ⟨p, hp, -⟩ := habs
    cases hp
  | cons spec rest ih =>
    cases hl : objLookup hf spec.1 with
    | none =>
      refine ⟨keyErrorMsg spec.1, ?_,
        .inl ⟨spec.1, spec.2, by rw [Prod.mk.eta]; exact List.mem_cons_self _ _,
          hl, rfl⟩⟩
      unfold exMapM
      refine exBind_error.mpr (.inl ?_)
      unfold headerField
      refine exBind_error.mpr (.inl ?_)
      simp [pyIndex, hl]
    | some v =>
      have hpy : pyIndex (.obj hf) spec.1 = .ok v := by simp [pyIndex, hl]
      have hmem2 : ∃ p, p ∈ rest ∧ objLookup hf p.1 = none := by
        obtain ⟨p, hp, hpl⟩ := habs
        rcases List.mem_cons.mp hp with hpe | hpr
        · rw [hpe, hl] at hpl
          cases hpl
        · exact ⟨p, hpr, hpl⟩
      cases hb : spec.2 with
      | false =>
        obtain ⟨e, hrest, hshape⟩ := ih hmem2
        refine ⟨e, ?_, ?_⟩
        · unfold exMapM
          refine exBind_error.mpr (.inr ⟨v, ?_, ?_⟩)
          · unfold headerField
            refine exBind_ok.mpr ⟨v, hpy, ?_⟩
            rw [if_neg]
            rw [hb]
            simp
          · exact exBind_error.mpr (.inl hrest)
        · rcases hshape with ⟨g, b2, hg, hgl, hge⟩ | ⟨g, w, hg, hgl, hge⟩
          · exact .inl ⟨g, b2, List.mem_cons_of_mem _ hg, hgl, hge⟩
          · exact .inr ⟨g, w, List.mem_cons_of_mem _ hg, hgl, hge⟩
      | true =>
        cases hc : floatCoerce v with
        | error msg =>
          refine ⟨msg, ?_, .inr ⟨spec.1, v, ?_, hl, hc⟩⟩
          · unfold exMapM
            refine exBind_error.mpr (.inl ?_)
            unfold headerField
            refine exBind_error.mpr (.inr ⟨v, hpy, ?_⟩)
            rw [if_pos hb]
            exact exBind_error.mpr (.inl hc)
          · have hsp : spec = (spec.1, true) := by
              rw [← hb, Prod.mk.eta]
            rw [← hsp]
            exact List.mem_cons_self _ _
        | ok q =>
          obtain ⟨e, hrest, hshape⟩ := ih hmem2
          refine ⟨e, ?_, ?_⟩
          · unfold exMapM
            refine exBind_error.mpr (.inr ⟨.float q, ?_, ?_⟩)
            · unfold headerField
              refine exBind_ok.mpr ⟨v, hpy, ?_⟩
              rw [if_pos hb]
              exact exBind_ok.mpr ⟨q, hc, rfl⟩
            · exact exBind_error.mpr (.inl hrest)
          · rcases hshape with ⟨g, b2, hg, hgl, hge⟩ | ⟨g, w, hg, hgl, hge⟩
            · exact .inl ⟨g, b2, List.mem_cons_of_mem _ hg, hgl, hge⟩
            · exact .inr ⟨g, w, List.mem_cons_of_mem _ hg, hgl, hge⟩

theorem catEntry_invoice_id {did : Json} {e : String × Json} {r : CatRow}
    (h : (do
        let cid ← objGet? e.2 "CategoryID"
        let cnt ← objGetD e.2 "Count" (.int 0)
        let cost ← objGetD e.2 "Cost" (.float 0)
        catInsert ⟨did, .str e.1, cid, cnt, cost⟩) = .ok r) :
    r.invoice_id = did := by
  obtain ⟨cid, -, h⟩ := exBind_ok.mp h
  obtain ⟨cnt, -, h⟩ := exBind_ok.mp h
  obtain ⟨cost, -, h⟩ := exBind_ok.mp h
  have hre := catInsert_ok h
  subst hre
  rfl

theorem catRows_invoice_id {did cd : Json} {rows : List CatRow}
    (h : catRows did cd = .ok rows) : ∀ r ∈ rows, r.invoice_id = did := by
  unfold catRows at h
  obtain ⟨entries, -, h⟩ := exBind_ok.mp h
  have hf := exMapM_ok_forall₂ h
  intro r hr
  obtain ⟨e, -, hR⟩ := forall₂_mem_right hf hr
  exact catEntry_invoice_id hR

theorem itemRows_invoice_id {did lis its : Json} {rows : List ItemRow}
    (h : itemRows did lis its = .ok rows) : ∀ r ∈ rows, r.invoice_id = did := by
  unfold itemRows at h
  obtain ⟨details, -, h⟩ := exBind_ok.mp h
  obtain ⟨v, -, h⟩ := exBind_ok.mp h
  obtain ⟨xs, -, h⟩ := exBind_ok.mp h
  have hf := exMapM_ok_forall₂ h
  intro r hr
  obtain ⟨li, -, hR⟩ := forall₂_mem_right hf hr
  obtain ⟨fs, iid, detail, uomv, -, -, -, -, -, hinv, -⟩ := lineItemRow_ok_inv hR
  exact hinv

theorem forall₂_catname {fs : List (String × Json)} {rows : List CatRow}
    (h : List.Forall₂ (fun (e : String × Json) (r : CatRow) =>
      r.category_name = Json.str e.1) fs rows) :
    rows.map CatRow.category_name = (fs.map Prod.fst).map Json.str := by
  induction h with
  | nil => rfl
  | cons hr _ ih => simp [hr, ih]

/-! ## Claim theorems -/

/-- C1, counterexample.  A single ingestion in which the line-item step
fails (the matched item detail has a present but empty UOM list) re-raises
the error yet leaves the freshly committed Document row and category row in
the database, starting from an empty database: the three steps do not
commit as one transaction and the failed ingestion is not rolled back. -/
theorem save_invoice_partial_commit_on_line_item_failure :
    outcomeRaised (save_invoice emptyDB bundleEmptyUoms) = true ∧
    (outcomeDB (save_invoice emptyDB bundleEmptyUoms)).docs.length = 1 ∧
    (outcomeDB (save_invoice emptyDB bundleEmptyUoms)).cats.length = 1 ∧
    (outcomeDB (save_invoice emptyDB bundleEmptyUoms)).items.length = 0 ∧
    emptyDB.docs.length = 0 ∧ emptyDB.cats.length = 0 :=
  ⟨rfl, rfl, rfl, rfl, rfl, rfl⟩

/-- C1, amended.  The three steps do not commit as one transaction: the
category step's commit also commits the pending Document upsert, so once
the category step has succeeded, a failure in the line-item step re-raises
the error but leaves the new Document row and the replaced category rows
committed while the line-item table keeps its prior rows. -/
theorem save_invoice_commit_boundary
    (db : DB) (inv raw header : Json) (row : DocRow) (did cats : Json)
    (db2 d : DB) (e : String)
    (hh : headerStep inv = .ok (raw, header, row))
    (hck : hasKey inv "categories" = true)
    (hdid : pyIndex header "DocumentId" = .ok did)
    (hcats : pyIndex inv "categories" = .ok cats)
    (hsc : save_categories (upsertDoc db row) did cats = .ok db2)
    (hli : lineItemsPhase inv raw header db2 db2 = .raised e d) :
    save_invoice db inv = .raised e db2 ∧ d = db2 ∧
    db2.docs = (upsertDoc db row).docs ∧
    (∃ rows, catRows did cats = .ok rows ∧
       db2.cats = db.cats.filter (fun r => !sqlEq r.invoice_id did) ++ rows) ∧
    db2.items = db.items := by
  have hdc : d = db2 := lineItemsPhase_raised hli
  subst hdc
  obtain ⟨rows, hr, hdb2⟩ := save_categories_ok hsc
  refine ⟨?_, rfl, ?_, ⟨rows, hr, ?_⟩, ?_⟩
  · simp only [save_invoice, hh, hck, hdid, hcats, hsc, eq_self_iff_true,
      if_true]
    exact hli
  · rw [hdb2]
  · rw [hdb2]
    rfl
  · rw [hdb2]
    rfl

def rowC1 : DocRow :=
  docRowOf (exOk (extractFields goodHeader) []) catsGrocery itemsEmptyUoms
    (bundleRaw goodHeader catsGrocery itemsEmptyUoms lineItemsX1)

def dbC1 : DB :=
  exOk (save_categories (upsertDoc emptyDB rowC1) (.str "2349466") catsGrocery)
    emptyDB

theorem save_invoice_commit_boundary_witness :
    save_invoice emptyDB bundleEmptyUoms =
      .raised "IndexError: list index out of range" dbC1 ∧
    dbC1.items = emptyDB.items :=
  have h := save_invoice_commit_boundary emptyDB bundleEmptyUoms
    (bundleRaw goodHeader catsGrocery itemsEmptyUoms lineItemsX1) goodHeader
    rowC1 (.str "2349466") catsGrocery dbC1 dbC1
    "IndexError: list index out of range" rfl rfl rfl rfl rfl rfl
  ⟨h.1, h.2.2.2.2⟩

/-- C5, amended.  If any required header field is absent, ingestion for
that document fails with the database unchanged (no row written to any
table); the reported error is the first failure in header-field order:
either a KeyError naming an absent required field, or — when a monetary
field evaluated earlier is present but fails float coercion — that coercion
error instead. -/
theorem missing_header_field_fails_before_any_write
    (db : DB) (inv raw : Json) (hf : List (String × Json)) (f : String)
    (b : Bool)
    (h1 : pyIndex inv "raw_data" = .ok raw)
    (h2 : pyIndex raw "header" = .ok (.obj hf))
    (hmem : (f, b) ∈ headerFieldSpecs)
    (habs : objLookup hf f = none) :
    outcomeRaised (save_invoice db inv) = true ∧
    outcomeDB (save_invoice db inv) = db ∧
    ((∃ g b2, (g, b2) ∈ headerFieldSpecs ∧ objLookup hf g = none ∧
        outcomeMsg (save_invoice db inv) = keyErrorMsg g) ∨
     (∃ g v, (g, true) ∈ headerFieldSpecs ∧ objLookup hf g = some v ∧
        floatCoerce v = .error (outcomeMsg (save_invoice db inv)))) := by
  obtain ⟨e, hext, hshape⟩ :=
    extractFields_absent_error headerFieldSpecs ⟨(f, b), hmem, habs⟩
  have hhs : headerStep inv = .error e := by
    unfold headerStep
    refine exBind_error.mpr (.inr ⟨raw, h1, ?_⟩)
    refine exBind_error.mpr (.inr ⟨.obj hf, h2, ?_⟩)
    exact exBind_error.mpr (.inl hext)
  have hsi : save_invoice db inv = .raised e db := by
    unfold save_invoice
    rw [hhs]
  rw [hsi]
  exact ⟨rfl, rfl, hshape⟩

theorem missing_header_field_fails_before_any_write_witness :
    outcomeRaised (save_invoice emptyDB bundleC5) = true ∧
    outcomeDB (save_invoice emptyDB bundleC5) = emptyDB ∧
    ((∃ g b2, (g, b2) ∈ headerFieldSpecs ∧ objLookup headerC5fields g = none ∧
        outcomeMsg (save_invoice emptyDB bundleC5) = keyErrorMsg g) ∨
     (∃ g v, (g, true) ∈ headerFieldSpecs ∧
        objLookup headerC5fields g = some v ∧
        floatCoerce v = .error (outcomeMsg (save_invoice emptyDB bundleC5)))) :=
  missing_header_field_fails_before_any_write emptyDB bundleC5
    (bundleRaw headerC5 catsGrocery itemsEmptyUoms lineItemsX1)
    headerC5fields "InvoiceTotal" true rfl rfl (by decide) rfl

/-- C3, evaluation at the failing input.  A line item whose matched item
detail carries a present but empty `UOMs` list makes the enrichment step
raise `IndexError` instead of using an empty object, while the same line
item against a detail with the `UOMs` key absent succeeds with null
SRP/margin/package fields. -/
theorem enrichment_raises_on_present_empty_uom_list :
    itemRows (.str "2349466") lineItemsX1 itemsEmptyUoms =
      .error "IndexError: list index out of range" ∧
    itemRows (.str "2349466") lineItemsX1 itemsNoUoms =
      .ok [⟨.str "2349466", .str "X1", .null, .null, .null, .int 5, .null,
            .int 2, .null, .null, .null, .null, .null, .null, .int 10⟩] :=
  ⟨rfl, rfl⟩

/-- C2, counterexample.  The row produced from a line item whose
`UnitPrice` field is absent stores quantity 3, a null unit_price and
line_total 0, so the stored line_total is not the product of the stored
quantity and the stored unit_price (the latter is not even a number). -/
theorem line_total_not_always_stored_product :
    lineItemRow (.str "D1") [] liNoUnitPrice = .ok rowNoUnitPrice ∧
    ¬ ∃ q u : Rat, toRatVal? rowNoUnitPrice.quantity = some q ∧
        toRatVal? rowNoUnitPrice.unit_price = some u ∧
        toRatVal? rowNoUnitPrice.line_total = some (q * u) := by
  refine ⟨rfl, ?_⟩
  rintro ⟨q, u, -, hu, -⟩
  simp [rowNoUnitPrice, toRatVal?] at hu

/-- C7, counterexample.  An empty line-item object resolves to a null item
identifier with no match in an empty items payload; the produced row has a
null item_id and a null unit_price, refuting that all core fields are
non-null for unmatched line items. -/
theorem unmatched_line_item_core_fields_can_be_null :
    resolvedItemId (.obj []) = .ok .null ∧
    detailsFind [] .null = none ∧
    lineItemRow (.str "D1") [] (.obj []) = .ok rowEmptyLine ∧
    rowEmptyLine.item_id = .null ∧ rowEmptyLine.unit_price = .null :=
  ⟨rfl, rfl, rfl, rfl, rfl⟩

/-- C5, counterexample.  With `InvoiceTotal` absent but `Allowances`
present and non-numeric, ingestion still fails with the database unchanged,
but the reported error is the float-coercion `ValueError` for `Allowances`,
not an error naming the absent field `InvoiceTotal`. -/
theorem missing_field_error_can_be_preempted :
    hasKey headerC5 "InvoiceTotal" = false ∧
    ("InvoiceTotal", true) ∈ headerFieldSpecs ∧
    save_invoice emptyDB bundleC5 =
      .raised "ValueError: could not convert string to float: x" emptyDB ∧
    "ValueError: could not convert string to float: x" ≠
      keyErrorMsg "InvoiceTotal" := by
  refine ⟨rfl, by decide, rfl, by decide⟩

/-- C6.  The item-lookup operation on an empty identifier list
short-circuits to the empty result set without issuing a network request. -/
theorem get_items_empty_short_circuit :
    get_items [] = .localResult (.obj [("Value", .arr [])]) := rfl

/-- C10.  A line item whose `Quantity` and `UnitPrice` fields are both
absent yields a row storing quantity `0` and line_total `0` but a null
unit_price: the quantity default `0` feeds both the stored column and the
line-total product, while the stored unit_price column has no default. -/
theorem absent_quantity_and_unit_price_defaults
    (did : Json) (ds : List (Json × Json)) (li : Json) (r : ItemRow)
    (hq : hasKey li "Quantity" = false) (hu : hasKey li "UnitPrice" = false)
    (h : lineItemRow did ds li = .ok r) :
    r.quantity = .int 0 ∧ r.unit_price = .null ∧ r.line_total = .int 0 := by
  obtain ⟨fs, iid, detail, uomv, hfs, -, -, -, -, -, -, -, -, -, -, -,
    hqty, hup, hmul⟩ := lineItemRow_ok_inv h
  subst hfs
  rw [hasKey_false_lookup hq, Option.getD_none] at hqty
  rw [hasKey_false_lookup hu, Option.getD_none] at hup
  rw [hasKey_false_lookup hu, Option.getD_none] at hmul
  rw [hqty] at hmul
  have hpm : pyMul (Json.int 0) (Json.int 0) = .ok (.int 0) := rfl
  rw [hpm] at hmul
  injection hmul with hmul
  exact ⟨hqty, hup, hmul.symm⟩

theorem absent_quantity_and_unit_price_defaults_witness :
    hasKey (Json.obj []) "Quantity" = false ∧
    hasKey (Json.obj []) "UnitPrice" = false ∧
    rowEmptyLine.quantity = .int 0 ∧ rowEmptyLine.unit_price = .null ∧
    rowEmptyLine.line_total = .int 0 :=
  ⟨rfl, rfl,
    absent_quantity_and_unit_price_defaults (.str "D1") [] (.obj [])
      rowEmptyLine rfl rfl rfl⟩

/-- C2, amended.  For every produced line-item row: when the stored
unit_price is non-null (the `UnitPrice` field was present and non-null),
the stored line_total is exactly the Python product of the stored quantity
and the stored unit_price; when the stored unit_price is null (`UnitPrice`
absent), the stored line_total is the stored quantity times the default 0
instead. -/
theorem line_total_stored_product_rule
    (did : Json) (ds : List (Json × Json)) (li : Json) (r : ItemRow)
    (h : lineItemRow did ds li = .ok r) :
    (r.unit_price ≠ .null → pyMul r.quantity r.unit_price = .ok r.line_total) ∧
    (r.unit_price = .null → pyMul r.quantity (.int 0) = .ok r.line_total) := by
  obtain ⟨fs, iid, detail, uomv, hfs, -, -, -, -, -, -, -, -, -, -, -,
    -, hup, hmul⟩ := lineItemRow_ok_inv h
  cases hl : objLookup fs "UnitPrice" with
  | none =>
    rw [hl] at hup hmul
    simp only [Option.getD_none] at hup hmul
    constructor
    · intro hne
      exact absurd hup hne
    · intro _
      exact hmul
  | some v =>
    rw [hl] at hup hmul
    simp only [Option.getD_some] at hup hmul
    constructor
    · intro _
      rw [hup]
      exact hmul
    · intro hnull
      rw [hup] at hnull
      subst hnull
      exact absurd hmul (by intro hc; exact pyMul_ok_right_ne_null hc rfl)

theorem line_total_stored_product_rule_witness :
    (rowNoUnitPrice.unit_price = .null →
      pyMul rowNoUnitPrice.quantity (.int 0) = .ok rowNoUnitPrice.line_total) ∧
    rowNoUnitPrice.unit_price = .null :=
  ⟨(line_total_stored_product_rule (.str "D1") [] liNoUnitPrice rowNoUnitPrice rfl).2,
   rfl⟩

/-- C7, amended.  A line item whose resolved item identifier finds no match
in the items payload produces, when its own fields are well formed, a row
whose enrichment fields (description, brand, SRP, margin percentage,
package description) are all null, whose invoice id is the ingested
document id and whose item id is the resolved identifier, and whose
quantity and line total are non-null; the stored unit price, however, is
null exactly when the line item carried no (non-null) `UnitPrice` value, so
not every core column is non-null. -/
theorem unmatched_line_item_row_shape
    (did : Json) (ds : List (Json × Json)) (li : Json) (iid : Json) (r : ItemRow)
    (hres : resolvedItemId li = .ok iid)
    (hmiss : detailsFind ds iid = none)
    (h : lineItemRow did ds li = .ok r) :
    r.item_description = .null ∧ r.brand_name = .null ∧ r.srp = .null ∧
    r.margin_pct = .null ∧ r.package_description = .null ∧
    r.invoice_id = did ∧ r.item_id = iid ∧
    r.quantity ≠ .null ∧ r.line_total ≠ .null := by
  obtain ⟨fs, iid', detail, uomv, hfs, hres', hget, -, htr, hinv, hitem,
    hdesc, hbrand, hsrp, hmarg, hpkg, hqty, -, hmul⟩ := lineItemRow_ok_inv h
  rw [hres] at hres'
  injection hres' with hres'
  subst hres'
  have hdet : detail = .obj [] := by
    unfold detailsGet at hget
    split at hget
    · rw [hmiss] at hget
      injection hget with hget
      exact hget.symm
    · cases hget
  subst hdet
  have huomv : uomv = .obj [] := htr rfl
  subst huomv
  refine ⟨?_, ?_, ?_, ?_, ?_, hinv, hitem, ?_, ?_⟩
  · injection hdesc with hd
    exact hd.symm
  · injection hbrand with hd
    exact hd.symm
  · injection hsrp with hd
    exact hd.symm
  · injection hmarg with hd
    exact hd.symm
  · injection hpkg with hd
    exact hd.symm
  · exact pyMul_ok_left_ne_null hmul
  · exact pyMul_ok_ne_null hmul

theorem unmatched_line_item_row_shape_witness :
    resolvedItemId liNoUnitPrice = .ok (.str "X") ∧
    detailsFind [] (.str "X") = none ∧
    rowNoUnitPrice.item_description = .null ∧ rowNoUnitPrice.brand_name = .null ∧
    rowNoUnitPrice.srp = .null ∧ rowNoUnitPrice.margin_pct = .null ∧
    rowNoUnitPrice.package_description = .null ∧
    rowNoUnitPrice.invoice_id = .str "D1" ∧ rowNoUnitPrice.item_id = .str "X" ∧
    rowNoUnitPrice.quantity ≠ .null ∧ rowNoUnitPrice.line_total ≠ .null := by
  have h := unmatched_line_item_row_shape (.str "D1") [] liNoUnitPrice
    (.str "X") rowNoUnitPrice rfl rfl rfl
  exact ⟨rfl, rfl, h.1, h.2.1, h.2.2.1, h.2.2.2.1, h.2.2.2.2.1, h.2.2.2.2.2.1,
    h.2.2.2.2.2.2.1, h.2.2.2.2.2.2.2.1, h.2.2.2.2.2.2.2.2⟩

/-- C8.  Category mapping produces one row per entry of the
category-name-keyed payload, storing the entry's name; an absent `Count`
field defaults to `0` and an absent `Cost` field defaults to `0` in the
stored row; and when the payload's names are distinct (a Python dict always
has distinct keys) the stored category names are distinct, one row per
name. -/
theorem category_rows_one_per_name_with_defaults
    (did : Json) (fs : List (String × Json)) (rows : List CatRow)
    (h : catRows did (.obj fs) = .ok rows) :
    rows.length = fs.length ∧
    List.Forall₂ (fun (e : String × Json) (r : CatRow) =>
      r.invoice_id = did ∧ r.category_name = .str e.1 ∧
      (hasKey e.2 "Count" = false → r.item_count = .int 0) ∧
      (hasKey e.2 "Cost" = false → r.total_cost = .float 0)) fs rows ∧
    ((fs.map Prod.fst).Nodup → (rows.map CatRow.category_name).Nodup) := by
  unfold catRows at h
  obtain ⟨entries, h1, h⟩ := exBind_ok.mp h
  simp [pyItems] at h1
  subst h1
  have hf := exMapM_ok_forall₂ h
  have key : ∀ (e : String × Json) (r : CatRow),
      (do
        let cid ← objGet? e.2 "CategoryID"
        let cnt ← objGetD e.2 "Count" (.int 0)
        let cost ← objGetD e.2 "Cost" (.float 0)
        catInsert ⟨did, .str e.1, cid, cnt, cost⟩) = .ok r →
      r.invoice_id = did ∧ r.category_name = .str e.1 ∧
      (hasKey e.2 "Count" = false → r.item_count = .int 0) ∧
      (hasKey e.2 "Cost" = false → r.total_cost = .float 0) := by
    intro e r he
    obtain ⟨cid, k1, he⟩ := exBind_ok.mp he
    obtain ⟨cnt, k2, he⟩ := exBind_ok.mp he
    obtain ⟨cost, k3, he⟩ := exBind_ok.mp he
    have hre := catInsert_ok he
    subst hre
    obtain ⟨gs, hgs, hcnt⟩ := objGetD_ok_shape k2
    obtain ⟨gs', hgs', hcost⟩ := objGetD_ok_shape k3
    rw [hgs] at hgs'
    injection hgs' with hgs'
    subst hgs'
    refine ⟨rfl, rfl, ?_, ?_⟩
    · intro hk
      rw [hgs] at hk
      rw [hasKey_false_lookup hk, Option.getD_none] at hcnt
      exact hcnt
    · intro hk
      rw [hgs] at hk
      rw [hasKey_false_lookup hk, Option.getD_none] at hcost
      exact hcost
  have h2 := hf.imp key
  refine ⟨(List.Forall₂.length_eq h2).symm, h2, ?_⟩
  intro hnd
  have hmap := forall₂_catname (h2.imp (fun e r hr => hr.2.1))
  rw [hmap]
  exact hnd.map (fun a b hab => by injection hab)

def catsPayloadW : List (String × Json) :=
  [("A", Json.obj []), ("B", Json.obj [("Count", Json.int 3)])]

theorem category_rows_one_per_name_with_defaults_witness :
    (exOk (catRows (.str "D") (.obj catsPayloadW)) []).length = 2 ∧
    ((exOk (catRows (.str "D") (.obj catsPayloadW)) []).map
        CatRow.category_name).Nodup := by
  have h := category_rows_one_per_name_with_defaults (.str "D") catsPayloadW
    (exOk (catRows (.str "D") (.obj catsPayloadW)) []) rfl
  refine ⟨by rw [h.1]; rfl, h.2.2 (by decide)⟩

/-- C4.  Two successful ingestions of `main`-shaped bundles for the same
document id leave, for that invoice, exactly the category rows and
line-item rows mapped from the second run's payloads — no duplicates and no
stale rows from the first run — and exactly one Document row for that
document id. -/
theorem reingest_replaces_invoice_rows
    (db db1 db2 : DB) (s1 s2 ds : String)
    (h1 c1 i1 l1 h2 c2 i2 l2 did : Json)
    (rows2 : List CatRow) (irows2 : List ItemRow)
    (hrun1 : save_invoice db (invoiceBundle s1 h1 c1 i1 l1) = .ok db1)
    (hrun2 : save_invoice db1 (invoiceBundle s2 h2 c2 i2 l2) = .ok db2)
    (hdid1 : pyIndex h1 "DocumentId" = .ok did)
    (hdid2 : pyIndex h2 "DocumentId" = .ok did)
    (hs : did = .str ds)
    (hcr : catRows did c2 = .ok rows2)
    (hir : itemRows did l2 i2 = .ok irows2) :
    db2.cats.filter (fun r => sqlEq r.invoice_id did) = rows2 ∧
    db2.items.filter (fun r => sqlEq r.invoice_id did) = irows2 ∧
    (db2.docs.filter (fun r => sqlEq r.document_id did)).length = 1 := by
  subst hs
  unfold save_invoice at hrun2
  split at hrun2
  next e heq => cases hrun2
  next raw header row heq =>
    obtain ⟨vals, hvals, ht⟩ := headerStep_bundle_ok heq
    injection ht with ht1 ht'
    injection ht' with ht2 ht3
    rw [ht1, ht2, ht3] at hrun2
    rw [if_pos (show hasKey (invoiceBundle s2 h2 c2 i2 l2) "categories" = true
      from rfl)] at hrun2
    split at hrun2
    next e heq2 => cases hrun2
    next did2 heq2 =>
      rw [hdid2] at heq2
      injection heq2 with heq2
      subst heq2
      split at hrun2
      next e heq3 => cases hrun2
      next cats2 heq3 =>
        rw [bundle_categories] at heq3
        injection heq3 with heq3
        subst heq3
        split at hrun2
        next e heq4 => cases hrun2
        next dbc heq4 =>
          unfold lineItemsPhase at hrun2
          rw [if_pos (show (hasKey (invoiceBundle s2 h2 c2 i2 l2) "raw_data"
            && hasKey (bundleRaw h2 c2 i2 l2) "line_items") = true from rfl)]
            at hrun2
          split at hrun2
          next e heq5 => cases hrun2
          next did3 heq5 =>
            rw [hdid2] at heq5
            injection heq5 with heq5
            subst heq5
            split at hrun2
            next e heq6 => cases hrun2
            next raw2 heq6 =>
              rw [bundle_rawdata] at heq6
              injection heq6 with heq6
              subst heq6
              split at hrun2
              next e heq7 => cases hrun2
              next lis2 heq7 =>
                rw [bundleRaw_lineitems] at heq7
                injection heq7 with heq7
                subst heq7
                split at hrun2
                next e heq8 => cases hrun2
                next its2 heq8 =>
                  rw [bundle_items] at heq8
                  injection heq8 with heq8
                  subst heq8
                  split at hrun2
                  next e heq9 => cases hrun2
                  next db3 heq9 =>
                    injection hrun2 with hrun2
                    subst hrun2
                    obtain ⟨rowsA, hcrA, hdbc⟩ := save_categories_ok heq4
                    rw [hcr] at hcrA
                    injection hcrA with hcrA
                    subst hcrA
                    obtain ⟨irowsA, hirA, hdb3⟩ := save_line_items_ok heq9
                    rw [hir] at hirA
                    injection hirA with hirA
                    subst hirA
                    have hrowid :
                        (docRowOf vals c2 i2 (bundleRaw h2 c2 i2 l2)).document_id
                          = Json.str ds := by
                      have hh := extractFields_ok_head hvals
                      rw [hdid2] at hh
                      injection hh with hh
                      exact hh.symm
                    refine ⟨?_, ?_, ?_⟩
                    · rw [hdb3, hdbc]
                      dsimp only [upsertDoc]
                      rw [List.filter_append,
                        filter_not_filter
                          (fun r => sqlEq r.invoice_id (Json.str ds)) db1.cats,
                        List.nil_append]
                      refine List.filter_eq_self.mpr ?_
                      intro a ha
                      rw [catRows_invoice_id hcr a ha]
                      exact sqlEq_str_refl ds
                    · rw [hdb3, hdbc]
                      dsimp only [upsertDoc]
                      rw [List.filter_append,
                        filter_not_filter
                          (fun r => sqlEq r.invoice_id (Json.str ds)) db1.items,
                        List.nil_append]
                      refine List.filter_eq_self.mpr ?_
                      intro a ha
                      rw [itemRows_invoice_id hir a ha]
                      exact sqlEq_str_refl ds
                    · rw [hdb3, hdbc]
                      dsimp only [upsertDoc]
                      simp only [hrowid]
                      rw [List.filter_append,
                        filter_not_filter
                          (fun r => sqlEq r.document_id (Json.str ds)) db1.docs,
                        List.nil_append]
                      simp [List.filter_cons, sqlEq_str_refl, hrowid]

def bundleRun1 : Json :=
  invoiceBundle "2349466" goodHeader catsGrocery itemsNoUoms lineItemsX1

def catsDairy : Json :=
  .obj [("Dairy", .obj [("CategoryID", .str "D2"), ("Count", .int 1),
                        ("Cost", .int 3)])]

def lineItemsY1 : Json :=
  .obj [("Value", .arr [.obj [("Item", .obj [("ItemId", .str "Y1")]),
                              ("Quantity", .int 1), ("UnitPrice", .int 3)]])]

def itemsEmptyVal : Json := .obj [("Value", .arr [])]

def bundleRun2 : Json :=
  invoiceBundle "2349466" goodHeader catsDairy itemsEmptyVal lineItemsY1

def dbRun1 : DB := outcomeDB (save_invoice emptyDB bundleRun1)

def dbRun2 : DB := outcomeDB (save_invoice dbRun1 bundleRun2)

theorem reingest_replaces_invoice_rows_witness :
    dbRun2.cats.filter (fun r => sqlEq r.invoice_id (.str "2349466")) =
      exOk (catRows (.str "2349466") catsDairy) [] ∧
    dbRun2.items.filter (fun r => sqlEq r.invoice_id (.str "2349466")) =
      exOk (itemRows (.str "2349466") lineItemsY1 itemsEmptyVal) [] ∧
    (dbRun2.docs.filter (fun r => sqlEq r.document_id (.str "2349466"))).length
      = 1 :=
  reingest_replaces_invoice_rows emptyDB dbRun1 dbRun2 "2349466" "2349466"
    "2349466" goodHeader catsGrocery itemsNoUoms lineItemsX1
    goodHeader catsDairy itemsEmptyVal lineItemsY1 (.str "2349466")
    (exOk (catRows (.str "2349466") catsDairy) [])
    (exOk (itemRows (.str "2349466") lineItemsY1 itemsEmptyVal) [])
    rfl rfl rfl rfl rfl rfl rfl

/-- C9.  The Verification Reporter only reads: for every database state,
`check_database` returns that state unchanged, regardless of whether the
report rendering succeeds or raises. -/
theorem check_database_read_only (db : DB) : (check_database db).2 = db := by
  simp only [check_database]
  split
  · rfl
  · split
    · rfl
    · split
      · rfl
      · rfl

end Harbor
